import Mathlib

/-!
Shallow embedding of the outfit/pose history state machine of the virtual
try-on application (the `App` controller in the source).  JavaScript objects
with string keys are modelled as association lists preserving insertion
order (`Object.values(m)[0]` is the first inserted value), JS truthiness of
string-or-undefined values is modelled by `truthy`, and the asynchronous,
fallible Generation Gateway calls are modelled by passing the call's result
(`Except String String`: failure message or produced image URL) as an
argument to the handler.  Each handler returns the post-state together with
the list of gateway calls it performed, so that "does not invoke the
gateway" and "which base image was passed" are provable propositions.
Presentation-only state (mobile sheet collapse, media query) is out of the
modelled state machine, matching the specification's scope.
-/

/-- A garment reference: unique id, display name, source image URL
(`WardrobeItem` in `types`). -/
structure WardrobeItem where
  id : String
  name : String
  url : String
deriving DecidableEq, Repr

/-- One step of the outfit history (`OutfitLayer` in `types`): optional
garment (`null` exactly for the root layer) and the pose-keyed cache of
generated images, modelled as an insertion-ordered association list. -/
structure OutfitLayer where
  garment : Option WardrobeItem
  poseImages : List (String × String)
deriving DecidableEq, Repr

/-- A call made to the Generation Gateway, with the inputs passed. -/
inductive GatewayCall where
  | tryOn (baseImage : String) (garmentFile : String)
  | poseVariation (baseImage : String) (poseInstruction : String)
deriving DecidableEq, Repr

/-- The controller state: the `useState` cells of `App` that belong to the
outfit/pose state machine. -/
structure AppState where
  modelImageUrl : Option String
  outfitHistory : List OutfitLayer
  currentOutfitIndex : Nat
  isLoading : Bool
  loadingMessage : String
  error : Option String
  currentPoseIndex : Nat
  wardrobe : List WardrobeItem
deriving DecidableEq, Repr

/-- The fixed ordered pose instruction list (`POSE_INSTRUCTIONS`). -/
def POSE_INSTRUCTIONS : List String :=
  [ "Chụp chính diện, tay chống hông"
  , "Hơi xoay người, góc 3/4"
  , "Chụp góc nghiêng"
  , "Nhảy lên, chụp khoảnh khắc"
  , "Đi bộ về phía máy ảnh"
  , "Dựa vào tường" ]

/-- The default pose instruction, `POSE_INSTRUCTIONS[0]`. -/
def defaultPoseInstruction : String := POSE_INSTRUCTIONS.getD 0 ""

/-- `defaultWardrobe` from `wardrobe.ts`: the default wardrobe is empty. -/
def defaultWardrobe : List WardrobeItem := []

/-- JS truthiness of a string-or-undefined value: `undefined` and the empty
string are falsy. -/
def truthy : Option String → Bool
  | none => false
  | some v => v ≠ ""

/-- JS `m[k]` on a string-keyed object modelled as an association list. -/
def lookupPose (m : List (String × String)) (k : String) : Option String :=
  (m.find? (fun p => p.1 == k)).map Prod.snd

/-- JS `Object.values(m)[0]`: the first inserted value, if any. -/
def firstPoseImage (m : List (String × String)) : Option String :=
  (m.map Prod.snd).head?

/-- JS `m[k] = v` on a string-keyed object: an existing key keeps its
insertion position, a new key is appended. -/
def insertPose (m : List (String × String)) (k v : String) : List (String × String) :=
  if m.any (fun p => p.1 == k) then
    m.map (fun p => if p.1 == k then (k, v) else p)
  else m ++ [(k, v)]

/-- Modelled from the spec: `getFriendlyErrorMessage` lives in `lib/utils`,
which is not among the provided sources.  Per the spec (§7) every
user-visible error is a single free-text message derived from the failure;
we model it as passing the failure text through, with the context fallback
used when the failure text is empty.  No claim depends on the exact text,
only on whether the error slot is set. -/
def getFriendlyErrorMessage (err : String) (fallback : String) : String :=
  if err = "" then fallback else err

/-- `displayImageUrl` (the `useMemo` projection): the active layer's image
for the currently selected pose, falling back to the first available image
of that layer, or the bare model image when there is no history. -/
def displayImageUrl (s : AppState) : Option String :=
  if s.outfitHistory.length = 0 then s.modelImageUrl
  else
    match s.outfitHistory[s.currentOutfitIndex]? with
    | none => s.modelImageUrl
    | some currentLayer =>
      match POSE_INSTRUCTIONS[s.currentPoseIndex]? with
      | none => firstPoseImage currentLayer.poseImages
      | some poseInstruction =>
        match lookupPose currentLayer.poseImages poseInstruction with
        | some v => some v
        | none => firstPoseImage currentLayer.poseImages

/-- `handleModelFinalized`: install the finalized base model as a single
root layer. -/
def handleModelFinalized (s : AppState) (url : String) : AppState :=
  { s with
      modelImageUrl := some url
      outfitHistory := [{ garment := none, poseImages := [(defaultPoseInstruction, url)] }]
      currentOutfitIndex := 0 }

/-- `handleStartOver`: full session reset. -/
def handleStartOver (_s : AppState) : AppState :=
  { modelImageUrl := none
    outfitHistory := []
    currentOutfitIndex := 0
    isLoading := false
    loadingMessage := ""
    error := none
    currentPoseIndex := 0
    wardrobe := defaultWardrobe }

/-- The generation path of `handleGarmentSelect` (the body after the guard
and the reuse check): clear error, call the try-on gateway with the
displayed image and the garment file, then commit or report failure. -/
def garmentSelectGenerate (s : AppState) (dispUrl garmentFile : String)
    (garmentInfo : WardrobeItem) (gateway : Except String String) :
    AppState × List GatewayCall :=
  match gateway with
  | .ok newImageUrl =>
    let newLayer : OutfitLayer :=
      { garment := some garmentInfo
        poseImages := [(defaultPoseInstruction, newImageUrl)] }
    ({ s with
        error := none
        outfitHistory := s.outfitHistory.take (s.currentOutfitIndex + 1) ++ [newLayer]
        currentOutfitIndex := s.currentOutfitIndex + 1
        currentPoseIndex := 0
        wardrobe :=
          if s.wardrobe.any (fun item => item.id == garmentInfo.id) then s.wardrobe
          else s.wardrobe ++ [garmentInfo]
        isLoading := false
        loadingMessage := "" },
     [GatewayCall.tryOn dispUrl garmentFile])
  | .error err =>
    ({ s with
        error := some (getFriendlyErrorMessage err "Không thể mặc trang phục")
        isLoading := false
        loadingMessage := "" },
     [GatewayCall.tryOn dispUrl garmentFile])

/-- `handleGarmentSelect`: guard on a displayable base image and the busy
flag, reuse-check the layer after the current position, otherwise generate. -/
def handleGarmentSelect (s : AppState) (garmentFile : String)
    (garmentInfo : WardrobeItem) (gateway : Except String String) :
    AppState × List GatewayCall :=
  match displayImageUrl s with
  | none => (s, [])
  | some dispUrl =>
    if dispUrl = "" ∨ s.isLoading then (s, [])
    else
      match s.outfitHistory[s.currentOutfitIndex + 1]? with
      | some nextLayer =>
        if nextLayer.garment.map WardrobeItem.id = some garmentInfo.id then
          ({ s with
              currentOutfitIndex := s.currentOutfitIndex + 1
              currentPoseIndex := 0 }, [])
        else garmentSelectGenerate s dispUrl garmentFile garmentInfo gateway
      | none => garmentSelectGenerate s dispUrl garmentFile garmentInfo gateway

/-- `handleRegenerateLayer`: guard on busy and index range, then regenerate
the layer from the first available pose image of the preceding layer.  The
fallible `urlToFile` step and the gateway call are passed as results. -/
def handleRegenerateLayer (s : AppState) (layerIndex : Nat)
    (urlToFileRes : Except String String) (gateway : Except String String) :
    AppState × List GatewayCall :=
  if s.isLoading = true ∨ layerIndex < 1 ∨ s.outfitHistory.length ≤ layerIndex then (s, [])
  else
    match s.outfitHistory[layerIndex]?, s.outfitHistory[layerIndex - 1]? with
    | some layerToRegenerate, some previousLayer =>
      match layerToRegenerate.garment with
      | none =>
        ({ s with
            error := some (getFriendlyErrorMessage
              "Thông tin trang phục hoặc lớp trước đó không hợp lệ." "Không thể tạo lại trang phục")
            isLoading := false
            loadingMessage := "" }, [])
      | some garmentInfo =>
        let noBaseRes : AppState × List GatewayCall :=
          ({ s with
              error := some (getFriendlyErrorMessage
                "Không tìm thấy hình ảnh cơ sở để tạo lại." "Không thể tạo lại trang phục")
              isLoading := false
              loadingMessage := "" }, [])
        match firstPoseImage previousLayer.poseImages with
        | none => noBaseRes
        | some baseImageUrl =>
          if baseImageUrl = "" then noBaseRes
          else
            match urlToFileRes with
            | .error err =>
              ({ s with
                  error := some (getFriendlyErrorMessage err "Không thể tạo lại trang phục")
                  isLoading := false
                  loadingMessage := "" }, [])
            | .ok garmentFile =>
              match gateway with
              | .ok newImageUrl =>
                let newLayer : OutfitLayer :=
                  { garment := some garmentInfo
                    poseImages := [(defaultPoseInstruction, newImageUrl)] }
                ({ s with
                    error := none
                    outfitHistory := (s.outfitHistory.take (layerIndex + 1)).set layerIndex newLayer
                    currentOutfitIndex := layerIndex
                    currentPoseIndex := 0
                    isLoading := false
                    loadingMessage := "" },
                 [GatewayCall.tryOn baseImageUrl garmentFile])
              | .error err =>
                ({ s with
                    error := some (getFriendlyErrorMessage err "Không thể tạo lại trang phục")
                    isLoading := false
                    loadingMessage := "" },
                 [GatewayCall.tryOn baseImageUrl garmentFile])
    | _, _ => (s, [])

/-- `handleRemoveLayer`: synchronous; index 0 is a full reset, an in-range
index ≥ 1 slices the history at that index and steps the position back. -/
def handleRemoveLayer (s : AppState) (layerIndex : Nat) : AppState :=
  if s.isLoading = true then s
  else if layerIndex = 0 then handleStartOver s
  else if layerIndex < s.outfitHistory.length then
    { s with
        outfitHistory := s.outfitHistory.take layerIndex
        currentOutfitIndex := layerIndex - 1
        currentPoseIndex := 0 }
  else s

/-- `handlePoseSelect`: guard on busy, empty history and same-pose; cached
target pose is a pure selector update; otherwise optimistically advance the
selector, call the pose gateway, and on failure report the error and revert
the selector. -/
def handlePoseSelect (s : AppState) (newIndex : Nat)
    (gateway : Except String String) : AppState × List GatewayCall :=
  if s.isLoading = true ∨ s.outfitHistory.length = 0 ∨ newIndex = s.currentPoseIndex then (s, [])
  else
    let poseInstruction := POSE_INSTRUCTIONS.getD newIndex "undefined"
    match s.outfitHistory[s.currentOutfitIndex]? with
    | none => (s, [])
    | some currentLayer =>
      if truthy (lookupPose currentLayer.poseImages poseInstruction) = true then
        ({ s with currentPoseIndex := newIndex }, [])
      else
        match firstPoseImage currentLayer.poseImages with
        | none => (s, [])
        | some baseImageForPoseChange =>
          if baseImageForPoseChange = "" then (s, [])
          else
            match gateway with
            | .ok newImageUrl =>
              ({ s with
                  error := none
                  currentPoseIndex := newIndex
                  outfitHistory := s.outfitHistory.set s.currentOutfitIndex
                    { currentLayer with
                        poseImages := insertPose currentLayer.poseImages poseInstruction newImageUrl }
                  isLoading := false
                  loadingMessage := "" },
               [GatewayCall.poseVariation baseImageForPoseChange poseInstruction])
            | .error err =>
              ({ s with
                  error := some (getFriendlyErrorMessage err "Không thể đổi dáng")
                  currentPoseIndex := s.currentPoseIndex
                  isLoading := false
                  loadingMessage := "" },
               [GatewayCall.poseVariation baseImageForPoseChange poseInstruction])

/-- The initial controller state (the `useState` initial values). -/
def initialState : AppState :=
  { modelImageUrl := none
    outfitHistory := []
    currentOutfitIndex := 0
    isLoading := false
    loadingMessage := ""
    error := none
    currentPoseIndex := 0
    wardrobe := defaultWardrobe }

/-- One user-initiated transition of the controller. -/
inductive Step : AppState → AppState → Prop
  | modelFinalized (s : AppState) (url : String) : Step s (handleModelFinalized s url)
  | startOver (s : AppState) : Step s (handleStartOver s)
  | garmentSelect (s : AppState) (garmentFile : String) (garmentInfo : WardrobeItem)
      (gateway : Except String String) :
      Step s (handleGarmentSelect s garmentFile garmentInfo gateway).1
  | regenerateLayer (s : AppState) (layerIndex : Nat)
      (urlToFileRes gateway : Except String String) :
      Step s (handleRegenerateLayer s layerIndex urlToFileRes gateway).1
  | removeLayer (s : AppState) (layerIndex : Nat) : Step s (handleRemoveLayer s layerIndex)
  | poseSelect (s : AppState) (newIndex : Nat) (gateway : Except String String) :
      Step s (handlePoseSelect s newIndex gateway).1

/-- States reachable from the initial state by controller transitions. -/
inductive Reachable : AppState → Prop
  | init : Reachable initialState
  | step {s t : AppState} : Reachable s → Step s t → Reachable t

/-! Concrete fixtures used by witnesses and counterexamples. -/

/-- A concrete catalog garment. -/
def gB : WardrobeItem := { id := "idB", name := "B", url := "uB" }

/-- Another concrete garment, distinct id. -/
def gD : WardrobeItem := { id := "idD", name := "D", url := "uD" }

/-- A concrete root layer (bare model, default pose image `m0`). -/
def rootLayer : OutfitLayer := { garment := none, poseImages := [(defaultPoseInstruction, "m0")] }

/-- A concrete garment layer for `gB`. -/
def layerB : OutfitLayer := { garment := some gB, poseImages := [(defaultPoseInstruction, "imgB")] }

/-- A state with history `[root, layerB]` viewed at position 0 — the layer
after the current position is a retained `layerB`, with a stale error. -/
def exReuseState : AppState :=
  { modelImageUrl := some "m"
    outfitHistory := [rootLayer, layerB]
    currentOutfitIndex := 0
    isLoading := false
    loadingMessage := ""
    error := some "old failure"
    currentPoseIndex := 0
    wardrobe := [] }

/-- C10: for every select-garment request whose try-on gateway call fails,
the wardrobe is left unchanged; the garment is added to the personal
wardrobe only on the success path. -/
theorem garmentSelect_gateway_failure_wardrobe_unchanged (s : AppState)
    (garmentFile : String) (garmentInfo : WardrobeItem) (msg : String) :
    (handleGarmentSelect s garmentFile garmentInfo (Except.error msg)).1.wardrobe
      = s.wardrobe := by
  unfold handleGarmentSelect garmentSelectGenerate
  split
  · rfl
  · split
    · rfl
    · split
      · split
        · rfl
        · rfl
      · rfl

/-- C9: on a select-garment reuse-cache hit (the layer after the current
position exists and carries the requested garment id), the entire result is
the input state with only the current position incremented and the pose
selector reset: history, wardrobe, busy flag, loading message and — in
particular — any previously displayed error message are unchanged, and no
gateway call is made. -/
theorem garmentSelect_reuse_hit_frame (s : AppState) (garmentFile : String)
    (garmentInfo : WardrobeItem) (gateway : Except String String)
    (dispUrl : String) (nextLayer : OutfitLayer) (g : WardrobeItem)
    (hdisp : displayImageUrl s = some dispUrl) (hne : dispUrl ≠ "")
    (hload : s.isLoading = false)
    (hnext : s.outfitHistory[s.currentOutfitIndex + 1]? = some nextLayer)
    (hg : nextLayer.garment = some g) (hid : g.id = garmentInfo.id) :
    handleGarmentSelect s garmentFile garmentInfo gateway =
      ({ s with currentOutfitIndex := s.currentOutfitIndex + 1, currentPoseIndex := 0 }, [])
      ∧ (handleGarmentSelect s garmentFile garmentInfo gateway).1.error = s.error := by
  have hmain : handleGarmentSelect s garmentFile garmentInfo gateway =
      ({ s with currentOutfitIndex := s.currentOutfitIndex + 1, currentPoseIndex := 0 }, []) := by
    unfold handleGarmentSelect
    simp [hdisp, hnext, hne, hload, hg, hid]
  exact ⟨hmain, by rw [hmain]⟩

/-- Witness for C9 at a concrete state carrying a stale error message. -/
theorem garmentSelect_reuse_hit_frame_witness :
    handleGarmentSelect exReuseState "f" gB (Except.ok "fresh") =
      ({ exReuseState with currentOutfitIndex := 1, currentPoseIndex := 0 }, [])
      ∧ (handleGarmentSelect exReuseState "f" gB (Except.ok "fresh")).1.error
          = exReuseState.error :=
  garmentSelect_reuse_hit_frame exReuseState "f" gB (Except.ok "fresh") "m0" layerB gB
    (by decide) (by decide) (by decide) (by decide) (by decide) (by decide)

/-- A concrete three-layer history `[Root, B, C]` state viewed at position 0
(used to exercise truncation-on-append). -/
def exTruncState : AppState :=
  { modelImageUrl := some "m"
    outfitHistory := [rootLayer, layerB,
      { garment := some { id := "idC", name := "C", url := "uC" }
        poseImages := [(defaultPoseInstruction, "imgC")] }]
    currentOutfitIndex := 0
    isLoading := false
    loadingMessage := ""
    error := none
    currentPoseIndex := 0
    wardrobe := [] }

/-- C6: truncation-on-append — a successful select-garment on the
generation path, taken at a position strictly below the last index, keeps
exactly the prefix up to the current position, appends the new layer, and
advances the position to the new last index. -/
theorem garmentSelect_truncates_then_appends (s : AppState)
    (garmentFile dispUrl newImageUrl : String) (garmentInfo : WardrobeItem)
    (hdisp : displayImageUrl s = some dispUrl) (hne : dispUrl ≠ "")
    (hload : s.isLoading = false)
    (hmiss : ∀ nextLayer, s.outfitHistory[s.currentOutfitIndex + 1]? = some nextLayer →
      ¬ nextLayer.garment.map WardrobeItem.id = some garmentInfo.id)
    (hpos : s.currentOutfitIndex < s.outfitHistory.length - 1) :
    (handleGarmentSelect s garmentFile garmentInfo (Except.ok newImageUrl)).1.outfitHistory =
      s.outfitHistory.take (s.currentOutfitIndex + 1) ++
        [{ garment := some garmentInfo
           poseImages := [(defaultPoseInstruction, newImageUrl)] }] ∧
    (handleGarmentSelect s garmentFile garmentInfo (Except.ok newImageUrl)).1.currentOutfitIndex =
      s.currentOutfitIndex + 1 ∧
    (handleGarmentSelect s garmentFile garmentInfo (Except.ok newImageUrl)).1.currentOutfitIndex =
      (handleGarmentSelect s garmentFile garmentInfo (Except.ok newImageUrl)).1.outfitHistory.length
        - 1 := by
  have hlen : s.currentOutfitIndex + 1 < s.outfitHistory.length := by
    omega
  have hgen : handleGarmentSelect s garmentFile garmentInfo (Except.ok newImageUrl) =
      garmentSelectGenerate s dispUrl garmentFile garmentInfo (Except.ok newImageUrl) := by
    unfold handleGarmentSelect
    rcases hnx : s.outfitHistory[s.currentOutfitIndex + 1]? with _ | nextLayer
    · simp [hdisp, hnx, hne, hload]
    · simp [hdisp, hnx, hne, hload, hmiss nextLayer hnx]
  rw [hgen]
  unfold garmentSelectGenerate
  refine ⟨rfl, rfl, ?_⟩
  simp [List.length_take, Nat.min_eq_left (Nat.le_of_lt hlen)]

/-- Witness for C6: `[Root, B, C]` at position 0, appending `D` yields
`[Root, D]` at position 1. -/
theorem garmentSelect_truncates_then_appends_witness :
    (handleGarmentSelect exTruncState "fD" gD (Except.ok "imgD")).1.outfitHistory =
      exTruncState.outfitHistory.take 1 ++
        [{ garment := some gD, poseImages := [(defaultPoseInstruction, "imgD")] }] ∧
    (handleGarmentSelect exTruncState "fD" gD (Except.ok "imgD")).1.currentOutfitIndex = 1 ∧
    (handleGarmentSelect exTruncState "fD" gD (Except.ok "imgD")).1.currentOutfitIndex =
      (handleGarmentSelect exTruncState "fD" gD (Except.ok "imgD")).1.outfitHistory.length - 1 :=
  garmentSelect_truncates_then_appends exTruncState "fD" "m0" "imgD" gD
    (by decide) (by decide) (by decide) (by decide) (by decide)

/-- A concrete two-layer state viewed at position 1 (for regeneration). -/
def exRegenState : AppState :=
  { modelImageUrl := some "m"
    outfitHistory := [rootLayer, layerB]
    currentOutfitIndex := 1
    isLoading := false
    loadingMessage := ""
    error := none
    currentPoseIndex := 0
    wardrobe := [] }

/-- C7: regenerate is insensitive to pose-navigation state — two runs of
regenerate-layer on states differing only in the currently selected pose
index make identical gateway calls, and every call regenerate makes passes
the preceding layer's first cached (representative) image as the base,
never the currently-displayed pose image. -/
theorem regenerate_base_pose_insensitive (s : AppState) (layerIndex p1 p2 : Nat)
    (urlToFileRes gateway : Except String String) :
    (handleRegenerateLayer { s with currentPoseIndex := p1 } layerIndex urlToFileRes gateway).2 =
      (handleRegenerateLayer { s with currentPoseIndex := p2 } layerIndex urlToFileRes gateway).2
    ∧ ∀ c ∈ (handleRegenerateLayer s layerIndex urlToFileRes gateway).2,
      ∃ previousLayer base garmentFile,
        s.outfitHistory[layerIndex - 1]? = some previousLayer ∧
        firstPoseImage previousLayer.poseImages = some base ∧
        urlToFileRes = Except.ok garmentFile ∧
        c = GatewayCall.tryOn base garmentFile := by
  constructor
  · unfold handleRegenerateLayer
    dsimp only
    by_cases hg : s.isLoading = true ∨ layerIndex < 1 ∨ s.outfitHistory.length ≤ layerIndex
    · rw [if_pos hg, if_pos hg]
    · rw [if_neg hg, if_neg hg]
      rcases h1 : s.outfitHistory[layerIndex]? with _ | layer <;>
        rcases h2 : s.outfitHistory[layerIndex - 1]? with _ | prev <;>
          simp only [h1, h2]
      rcases h3 : layer.garment with _ | info
      · simp only [h3]
      · simp only [h3]
        rcases h4 : firstPoseImage prev.poseImages with _ | base
        · simp only [h4]
        · simp only [h4]
          by_cases h5 : base = ""
          · rw [if_pos h5, if_pos h5]
          · rw [if_neg h5, if_neg h5]
            rcases urlToFileRes with err | gf
            · rfl
            · rcases gateway with err2 | img <;> rfl
  · unfold handleRegenerateLayer
    dsimp only
    by_cases hg : s.isLoading = true ∨ layerIndex < 1 ∨ s.outfitHistory.length ≤ layerIndex
    · rw [if_pos hg]
      intro c hc
      simp at hc
    · rw [if_neg hg]
      rcases h1 : s.outfitHistory[layerIndex]? with _ | layer <;>
        rcases h2 : s.outfitHistory[layerIndex - 1]? with _ | prev <;>
          simp only [h1, h2]
      · intro c hc; simp at hc
      · intro c hc; simp at hc
      · intro c hc; simp at hc
      · rcases h3 : layer.garment with _ | info
        · simp only [h3]; intro c hc; simp at hc
        · simp only [h3]
          rcases h4 : firstPoseImage prev.poseImages with _ | base
          · simp only [h4]; intro c hc; simp at hc
          · simp only [h4]
            by_cases h5 : base = ""
            · rw [if_pos h5]; intro c hc; simp at hc
            · rw [if_neg h5]
              rcases urlToFileRes with err | gf
              · intro c hc; simp at hc
              · rcases gateway with err2 | img <;>
                  · intro c hc
                    simp at hc
                    subst hc
                    exact ⟨prev, base, gf, rfl, h4, rfl, rfl⟩

/-- Witness for C7 at a concrete regeneration of layer 1. -/
theorem regenerate_base_pose_insensitive_witness :
    ((handleRegenerateLayer { exRegenState with currentPoseIndex := 3 } 1
        (Except.ok "gf") (Except.ok "img")).2 =
      (handleRegenerateLayer { exRegenState with currentPoseIndex := 0 } 1
        (Except.ok "gf") (Except.ok "img")).2)
    ∧ (∃ previousLayer base garmentFile,
        exRegenState.outfitHistory[1 - 1]? = some previousLayer ∧
        firstPoseImage previousLayer.poseImages = some base ∧
        (Except.ok "gf" : Except String String) = Except.ok garmentFile ∧
        GatewayCall.tryOn "m0" "gf" = GatewayCall.tryOn base garmentFile) :=
  ⟨(regenerate_base_pose_insensitive exRegenState 1 3 0 (Except.ok "gf") (Except.ok "img")).1,
   (regenerate_base_pose_insensitive exRegenState 1 3 0 (Except.ok "gf") (Except.ok "img")).2
     (GatewayCall.tryOn "m0" "gf") (by decide)⟩

/-- A concrete one-layer state at the default pose (for pose selection). -/
def exPoseState : AppState :=
  { modelImageUrl := some "m"
    outfitHistory := [rootLayer]
    currentOutfitIndex := 0
    isLoading := false
    loadingMessage := ""
    error := none
    currentPoseIndex := 0
    wardrobe := [] }

/-- C4: pose rollback atomicity — a select-pose request for an uncached
pose whose gateway call fails ends with the pose selector equal to its
pre-attempt value, the outfit history (hence the active layer's pose map)
unchanged, and the error message set, all in the same post-state; exactly
one pose-variation gateway call was made. -/
theorem poseSelect_failure_rollback (s : AppState) (newIndex : Nat) (msg : String)
    (currentLayer : OutfitLayer) (base : String)
    (hload : s.isLoading = false)
    (hne : s.outfitHistory.length ≠ 0)
    (hdiff : newIndex ≠ s.currentPoseIndex)
    (hlayer : s.outfitHistory[s.currentOutfitIndex]? = some currentLayer)
    (hmiss : truthy (lookupPose currentLayer.poseImages
      (POSE_INSTRUCTIONS.getD newIndex "undefined")) = false)
    (hbase : firstPoseImage currentLayer.poseImages = some base) (hbne : base ≠ "") :
    (handlePoseSelect s newIndex (Except.error msg)).1.currentPoseIndex = s.currentPoseIndex ∧
    (handlePoseSelect s newIndex (Except.error msg)).1.outfitHistory = s.outfitHistory ∧
    (handlePoseSelect s newIndex (Except.error msg)).1.error =
      some (getFriendlyErrorMessage msg "Không thể đổi dáng") ∧
    (handlePoseSelect s newIndex (Except.error msg)).2 =
      [GatewayCall.poseVariation base (POSE_INSTRUCTIONS.getD newIndex "undefined")] := by
  have hg : ¬ (s.isLoading = true ∨ s.outfitHistory.length = 0 ∨ newIndex = s.currentPoseIndex) := by
    simp [hload, hne, hdiff]
  have hmiss2 : ¬ truthy (lookupPose currentLayer.poseImages
      (POSE_INSTRUCTIONS.getD newIndex "undefined")) = true := by
    simp only [Bool.not_eq_true]
    exact hmiss
  have hres : handlePoseSelect s newIndex (Except.error msg) =
      ({ s with
          error := some (getFriendlyErrorMessage msg "Không thể đổi dáng")
          currentPoseIndex := s.currentPoseIndex
          isLoading := false
          loadingMessage := "" },
       [GatewayCall.poseVariation base (POSE_INSTRUCTIONS.getD newIndex "undefined")]) := by
    unfold handlePoseSelect
    rw [if_neg hg]
    simp only [hlayer]
    rw [if_neg hmiss2]
    simp only [hbase]
    rw [if_neg hbne]
  rw [hres]
  exact ⟨rfl, rfl, rfl, rfl⟩

/-- Witness for C4: selecting uncached pose 1 on a single-layer state with
a failing gateway leaves the selector at 0, the history unchanged, and the
error set. -/
theorem poseSelect_failure_rollback_witness :
    (handlePoseSelect exPoseState 1 (Except.error "boom")).1.currentPoseIndex
        = exPoseState.currentPoseIndex ∧
    (handlePoseSelect exPoseState 1 (Except.error "boom")).1.outfitHistory
        = exPoseState.outfitHistory ∧
    (handlePoseSelect exPoseState 1 (Except.error "boom")).1.error =
      some (getFriendlyErrorMessage "boom" "Không thể đổi dáng") ∧
    (handlePoseSelect exPoseState 1 (Except.error "boom")).2 =
      [GatewayCall.poseVariation "m0" (POSE_INSTRUCTIONS.getD 1 "undefined")] :=
  poseSelect_failure_rollback exPoseState 1 "boom" rootLayer "m0"
    (by decide) (by decide) (by decide) (by decide) (by decide) (by decide) (by decide)

/-- The root invariant together with the auxiliary fact making the
empty-history case closed under transitions: with no history there is no
finalized model image either. -/
def RootInv (s : AppState) : Prop :=
  (∀ l, s.outfitHistory.head? = some l → l.garment = none) ∧
  (s.outfitHistory = [] → s.modelImageUrl = none)

theorem rootInv_initial : RootInv initialState :=
  ⟨fun l hl => by simp [initialState] at hl, fun _ => rfl⟩

theorem rootInv_modelFinalized (s : AppState) (url : String) :
    RootInv (handleModelFinalized s url) := by
  constructor
  · intro l hl
    simp [handleModelFinalized] at hl
    rw [← hl]
  · intro hemp
    simp [handleModelFinalized] at hemp

theorem rootInv_startOver (s : AppState) : RootInv (handleStartOver s) :=
  ⟨fun l hl => by simp [handleStartOver] at hl, fun _ => rfl⟩

theorem rootInv_garmentSelectGenerate (s : AppState) (dispUrl f : String)
    (g : WardrobeItem) (gw : Except String String) (a : OutfitLayer) (rest : List OutfitLayer)
    (hh : s.outfitHistory = a :: rest) (ha : a.garment = none) :
    RootInv (garmentSelectGenerate s dispUrl f g gw).1 := by
  unfold garmentSelectGenerate
  rcases gw with err | img
  · constructor
    · intro l hl
      rw [hh] at hl
      simp at hl
      rw [hl] at ha
      exact ha
    · intro hemp
      rw [hh] at hemp
      simp at hemp
  · constructor
    · intro l hl
      rw [hh] at hl
      simp [List.take] at hl
      rw [hl] at ha
      exact ha
    · intro hemp
      rw [hh] at hemp
      simp [List.take] at hemp

theorem rootInv_garmentSelect (s : AppState) (f : String) (g : WardrobeItem)
    (gw : Except String String) (h : RootInv s) :
    RootInv (handleGarmentSelect s f g gw).1 := by
  unfold handleGarmentSelect
  rcases hd : displayImageUrl s with _ | dispUrl
  · simp only [hd]
    exact h
  · simp only [hd]
    by_cases hguard : dispUrl = "" ∨ s.isLoading = true
    · rw [if_pos hguard]; exact h
    · rw [if_neg hguard]
      have hne : s.outfitHistory ≠ [] := by
        intro hemp
        have hm := h.2 hemp
        rw [displayImageUrl] at hd
        simp [hemp, hm] at hd
      rcases hh : s.outfitHistory with _ | ⟨a, rest⟩
      · exact absurd hh hne
      · have ha : a.garment = none := h.1 a (by rw [hh]; rfl)
        rcases hnx : (a :: rest)[s.currentOutfitIndex + 1]? with _ | nextLayer
        · simp only [hnx]
          exact rootInv_garmentSelectGenerate s dispUrl f g gw a rest hh ha
        · simp only [hnx]
          by_cases hid : nextLayer.garment.map WardrobeItem.id = some g.id
          · rw [if_pos hid]
            constructor
            · intro l hl
              simp at hl
              subst hl
              exact ha
            · intro hemp
              simp at hemp
          · rw [if_neg hid]
            exact rootInv_garmentSelectGenerate s dispUrl f g gw a rest hh ha

theorem rootInv_regenerateLayer (s : AppState) (i : Nat) (fr gw : Except String String)
    (h : RootInv s) : RootInv (handleRegenerateLayer s i fr gw).1 := by
  unfold handleRegenerateLayer
  dsimp only
  by_cases hg : s.isLoading = true ∨ i < 1 ∨ s.outfitHistory.length ≤ i
  · rw [if_pos hg]; exact h
  · rw [if_neg hg]
    push_neg at hg
    obtain ⟨hload, hge, hlen⟩ := hg
    rcases h1 : s.outfitHistory[i]? with _ | layer <;>
      rcases h2 : s.outfitHistory[i - 1]? with _ | prev <;>
        try simp only [h1, h2]
    · exact h
    · exact h
    · exact h
    · rcases h3 : layer.garment with _ | info <;> try simp only [h3]
      · exact h
      · rcases h4 : firstPoseImage prev.poseImages with _ | base <;> try simp only [h4]
        · exact h
        · by_cases h5 : base = ""
          · rw [if_pos h5]; exact h
          · rw [if_neg h5]
            rcases fr with err | gf
            · exact h
            · rcases gw with err2 | img
              · exact h
              · have hne : s.outfitHistory ≠ [] := by
                  intro hemp
                  rw [hemp] at hlen
                  simp at hlen
                rcases hh : s.outfitHistory with _ | ⟨a, rest⟩
                · exact absurd hh hne
                · rcases hi : i with _ | k
                  · omega
                  · constructor
                    · intro l hl
                      simp [List.take_succ_cons, List.set_cons_succ] at hl
                      subst hl
                      exact h.1 a (by rw [hh]; rfl)
                    · intro hemp
                      simp at hemp

theorem rootInv_removeLayer (s : AppState) (i : Nat) (h : RootInv s) :
    RootInv (handleRemoveLayer s i) := by
  unfold handleRemoveLayer
  by_cases hl : s.isLoading = true
  · rw [if_pos hl]; exact h
  · rw [if_neg hl]
    by_cases hz : i = 0
    · rw [if_pos hz]
      exact rootInv_startOver s
    · rw [if_neg hz]
      by_cases hr : i < s.outfitHistory.length
      · rw [if_pos hr]
        rcases hh : s.outfitHistory with _ | ⟨a, rest⟩
        · rw [hh] at hr
          simp at hr
        · rcases hi : i with _ | k
          · exact absurd hi hz
          · constructor
            · intro l hl2
              simp [List.take_succ_cons] at hl2
              subst hl2
              exact h.1 a (by rw [hh]; rfl)
            · intro hemp
              simp at hemp
      · rw [if_neg hr]; exact h

theorem rootInv_poseSelect (s : AppState) (j : Nat) (gw : Except String String)
    (h : RootInv s) : RootInv (handlePoseSelect s j gw).1 := by
  unfold handlePoseSelect
  dsimp only
  by_cases hg : s.isLoading = true ∨ s.outfitHistory.length = 0 ∨ j = s.currentPoseIndex
  · rw [if_pos hg]; exact h
  · rw [if_neg hg]
    rcases hl : s.outfitHistory[s.currentOutfitIndex]? with _ | currentLayer <;>
      try simp only [hl]
    · exact h
    · by_cases hc : truthy (lookupPose currentLayer.poseImages
        (POSE_INSTRUCTIONS.getD j "undefined")) = true
      · rw [if_pos hc]; exact h
      · rw [if_neg hc]
        rcases hb : firstPoseImage currentLayer.poseImages with _ | base <;>
          try simp only [hb]
        · exact h
        · by_cases hbe : base = ""
          · rw [if_pos hbe]; exact h
          · rw [if_neg hbe]
            rcases gw with err | img
            · exact h
            · constructor
              · intro l hl2
                rcases hh : s.outfitHistory with _ | ⟨a, rest⟩
                · rw [hh] at hl2
                  simp at hl2
                · rw [hh] at hl2 hl
                  rcases hidx : s.currentOutfitIndex with _ | k
                  · rw [hidx] at hl hl2
                    simp at hl
                    simp [List.set_cons_zero] at hl2
                    rw [← hl2]
                    have : currentLayer.garment = a.garment := by rw [hl]
                    rw [this]
                    exact h.1 a (by rw [hh]; rfl)
                  · rw [hidx] at hl2
                    simp [List.set_cons_succ] at hl2
                    subst hl2
                    exact h.1 a (by rw [hh]; rfl)
              · intro hemp
                rcases hh : s.outfitHistory with _ | ⟨a, rest⟩
                · rw [hh] at hl
                  simp at hl
                · rw [hh] at hemp
                  rcases hidx : s.currentOutfitIndex with _ | k
                  · rw [hidx] at hemp
                    simp at hemp
                  · rw [hidx] at hemp
                    simp at hemp

theorem rootInv_step {s t : AppState} (h : RootInv s) (st : Step s t) : RootInv t := by
  cases st with
  | modelFinalized url => exact rootInv_modelFinalized _ url
  | startOver => exact rootInv_startOver _
  | garmentSelect f g gw => exact rootInv_garmentSelect _ f g gw h
  | regenerateLayer i fr gw => exact rootInv_regenerateLayer _ i fr gw h
  | removeLayer i => exact rootInv_removeLayer _ i h
  | poseSelect j gw => exact rootInv_poseSelect _ j gw h

theorem reachable_root_garment_none (s : AppState) (hs : Reachable s)
    (hne : s.outfitHistory ≠ []) :
    s.outfitHistory.head?.map OutfitLayer.garment = some none := by
  have hinv : RootInv s := by
    clear hne
    induction hs with
    | init => exact rootInv_initial
    | step hr st ih => exact rootInv_step ih st
  rcases hh : s.outfitHistory with _ | ⟨a, rest⟩
  · exact absurd hh hne
  · have ha := hinv.1 a (by rw [hh]; rfl)
    simp [ha]

theorem reachable_root_garment_none_witness :
    (handleModelFinalized initialState "m").outfitHistory.head?.map OutfitLayer.garment
      = some none :=
  reachable_root_garment_none (handleModelFinalized initialState "m")
    (Reachable.step Reachable.init (Step.modelFinalized initialState "m"))
    (by decide)

/-- C1: evaluating the code at the claim's scenario — history
`[rootLayer, layerB]` at position 1, remove layer 1, then select `layerB`'s
garment again.  The removal physically discards `layerB` (`slice(0, 1)`):
the history afterwards is `[rootLayer]` at position 0 with no redo branch
retained, so the subsequent selection of the same garment misses the reuse
check and invokes the try-on gateway. -/
theorem removeLayer_then_reselect_invokes_gateway :
    (handleRemoveLayer exRegenState 1).outfitHistory = [rootLayer] ∧
    (handleRemoveLayer exRegenState 1).currentOutfitIndex = 0 ∧
    (handleGarmentSelect (handleRemoveLayer exRegenState 1) "fB" gB (Except.ok "imgB2")).2 =
      [GatewayCall.tryOn "m0" "fB"] := by decide

/-- A layer whose pose cache holds the default pose and pose 2, with
different images. -/
def layerTwoPoses : OutfitLayer :=
  { garment := some gB
    poseImages := [(defaultPoseInstruction, "img0"), (POSE_INSTRUCTIONS.getD 2 "", "img2")] }

/-- A two-layer state whose active layer has two cached poses, viewed at
the default pose. -/
def exPoseDepState0 : AppState :=
  { modelImageUrl := some "m"
    outfitHistory := [rootLayer, layerTwoPoses]
    currentOutfitIndex := 1
    isLoading := false
    loadingMessage := ""
    error := none
    currentPoseIndex := 0
    wardrobe := [] }

/-- C2 counterexample: two states differing only in the selected pose index
pass different base images to the try-on gateway, so the base image is not
independent of the UI pose selection. -/
theorem garmentSelect_base_depends_on_pose_counterexample :
    ({ exPoseDepState0 with currentPoseIndex := 2 } : AppState).outfitHistory
        = exPoseDepState0.outfitHistory ∧
    (handleGarmentSelect { exPoseDepState0 with currentPoseIndex := 2 } "f" gD
        (Except.ok "r")).2 = [GatewayCall.tryOn "img2" "f"] ∧
    (handleGarmentSelect exPoseDepState0 "f" gD (Except.ok "r")).2 =
      [GatewayCall.tryOn "img0" "f"] ∧
    (handleGarmentSelect { exPoseDepState0 with currentPoseIndex := 2 } "f" gD
        (Except.ok "r")).2 ≠
      (handleGarmentSelect exPoseDepState0 "f" gD (Except.ok "r")).2 := by decide

/-- C2 amended: every base image a select-garment request passes to the
try-on gateway is the currently displayed image of the active layer
(`displayImageUrl`): its pose-cache entry at the currently selected pose,
falling back to the layer's first cached entry — a choice that does depend
on the selected pose index. -/
theorem garmentSelect_base_is_display_image (s : AppState) (garmentFile : String)
    (garmentInfo : WardrobeItem) (gateway : Except String String) (c : GatewayCall)
    (hc : c ∈ (handleGarmentSelect s garmentFile garmentInfo gateway).2) :
    ∃ d, displayImageUrl s = some d ∧ d ≠ "" ∧ c = GatewayCall.tryOn d garmentFile := by
  unfold handleGarmentSelect at hc
  rcases hd : displayImageUrl s with _ | dispUrl <;> try simp only [hd] at hc
  · simp at hc
  · by_cases hguard : dispUrl = "" ∨ s.isLoading = true
    · rw [if_pos hguard] at hc
      simp at hc
    · rw [if_neg hguard] at hc
      have hne : dispUrl ≠ "" := fun he => hguard (Or.inl he)
      have hcall : c = GatewayCall.tryOn dispUrl garmentFile := by
        rcases hnx : s.outfitHistory[s.currentOutfitIndex + 1]? with _ | nextLayer <;>
          try simp only [hnx] at hc
        · unfold garmentSelectGenerate at hc
          rcases gateway with err | img <;> simp at hc <;> exact hc
        · by_cases hid : nextLayer.garment.map WardrobeItem.id = some garmentInfo.id
          · rw [if_pos hid] at hc
            simp at hc
          · rw [if_neg hid] at hc
            unfold garmentSelectGenerate at hc
            rcases gateway with err | img <;> simp at hc <;> exact hc
      exact ⟨dispUrl, rfl, hne, hcall⟩

/-- Witness for the amended C2 at a concrete accepted request. -/
theorem garmentSelect_base_is_display_image_witness :
    ∃ d, displayImageUrl { exPoseDepState0 with currentPoseIndex := 2 } = some d ∧ d ≠ "" ∧
      GatewayCall.tryOn "img2" "f" = GatewayCall.tryOn d "f" :=
  garmentSelect_base_is_display_image { exPoseDepState0 with currentPoseIndex := 2 } "f" gD
    (Except.ok "r") (GatewayCall.tryOn "img2" "f") (by decide)

/-- A root layer with two cached poses (default and pose 1). -/
def rootTwoPoses : OutfitLayer :=
  { garment := none
    poseImages := [(defaultPoseInstruction, "m0"), (POSE_INSTRUCTIONS.getD 1 "", "m1")] }

/-- A busy state whose active layer already caches pose 1. -/
def exBusyState : AppState :=
  { modelImageUrl := some "m"
    outfitHistory := [rootTwoPoses]
    currentOutfitIndex := 0
    isLoading := true
    loadingMessage := "Đang đổi dáng..."
    error := none
    currentPoseIndex := 0
    wardrobe := [] }

/-- C3 counterexample: while busy, a select-pose request whose target pose
(index 1) is already cached and differs from the current selector is
silently ignored — the selector is not set to the target, contradicting
the claim that it is always allowed and takes effect instantaneously. -/
theorem poseSelect_busy_cached_ignored_counterexample :
    exBusyState.isLoading = true ∧
    truthy (lookupPose rootTwoPoses.poseImages (POSE_INSTRUCTIONS.getD 1 "undefined")) = true ∧
    (1 : Nat) ≠ exBusyState.currentPoseIndex ∧
    handlePoseSelect exBusyState 1 (Except.ok "x") = (exBusyState, []) ∧
    (handlePoseSelect exBusyState 1 (Except.ok "x")).1.currentPoseIndex ≠ 1 := by decide

/-- C3 amended: while busy every transition request — including a
select-pose whose target pose is already cached — is silently ignored;
when not busy, a select-pose to an already-cached pose that differs from
the current selector takes effect instantaneously: the selector is set to
the target with no gateway call and no busy transition. -/
theorem busy_ignores_all_and_cached_pose_instantaneous (s t : AppState)
    (i j k : Nat) (garmentFile : String) (garmentInfo : WardrobeItem)
    (fr gw gw2 : Except String String) (currentLayer : OutfitLayer)
    (hbusy : s.isLoading = true)
    (ht : t.isLoading = false)
    (hlayer : t.outfitHistory[t.currentOutfitIndex]? = some currentLayer)
    (hdiff : k ≠ t.currentPoseIndex)
    (hcached : truthy (lookupPose currentLayer.poseImages
      (POSE_INSTRUCTIONS.getD k "undefined")) = true) :
    handleGarmentSelect s garmentFile garmentInfo gw = (s, []) ∧
    handleRegenerateLayer s i fr gw = (s, []) ∧
    handleRemoveLayer s i = s ∧
    handlePoseSelect s j gw = (s, []) ∧
    handlePoseSelect t k gw2 = ({ t with currentPoseIndex := k }, []) := by
  have hlen : t.outfitHistory.length ≠ 0 := by
    intro h0
    rw [List.length_eq_zero] at h0
    rw [h0] at hlayer
    simp at hlayer
  refine ⟨?_, ?_, ?_, ?_, ?_⟩
  · unfold handleGarmentSelect
    rcases hd : displayImageUrl s with _ | dispUrl
    · simp only [hd]
    · simp only [hd]
      rw [if_pos (Or.inr hbusy)]
  · unfold handleRegenerateLayer
    rw [if_pos (Or.inl hbusy)]
  · unfold handleRemoveLayer
    rw [if_pos hbusy]
  · unfold handlePoseSelect
    rw [if_pos (Or.inl hbusy)]
  · have hg : ¬ (t.isLoading = true ∨ t.outfitHistory.length = 0 ∨ k = t.currentPoseIndex) := by
      simp [ht, hlen, hdiff]
    unfold handlePoseSelect
    rw [if_neg hg]
    simp only [hlayer]
    rw [if_pos hcached]

/-- Witness for the amended C3: busy state ignores all four transitions;
the same state with busy cleared accepts the cached-pose selection
instantaneously. -/
theorem busy_ignores_all_and_cached_pose_instantaneous_witness :
    handleGarmentSelect exBusyState "f" gB (Except.ok "x") = (exBusyState, []) ∧
    handleRegenerateLayer exBusyState 1 (Except.ok "gf") (Except.ok "x") = (exBusyState, []) ∧
    handleRemoveLayer exBusyState 1 = exBusyState ∧
    handlePoseSelect exBusyState 1 (Except.ok "x") = (exBusyState, []) ∧
    handlePoseSelect { exBusyState with isLoading := false } 1 (Except.ok "x") =
      ({ { exBusyState with isLoading := false } with currentPoseIndex := 1 }, []) :=
  busy_ignores_all_and_cached_pose_instantaneous exBusyState
    { exBusyState with isLoading := false } 1 1 1 "f" gB
    (Except.ok "gf") (Except.ok "x") (Except.ok "x") rootTwoPoses
    (by decide) (by decide) (by decide) (by decide) (by decide)

/-- C5 counterexample: a remove-layer request that passes its guards (not
busy, index 1 in range) retains a previously displayed error message — it
does not clear the error slot at its start. -/
theorem removeLayer_retains_error_counterexample :
    exReuseState.isLoading = false ∧
    (1 : Nat) ≠ 0 ∧ 1 < exReuseState.outfitHistory.length ∧
    exReuseState.error = some "old failure" ∧
    (handleRemoveLayer exReuseState 1).error = some "old failure" := by decide

/-- A two-layer state (root with two cached poses, then `layerB`) carrying a
stale error message, used to exercise every error-slot conjunct. -/
def exErrPolicyState : AppState :=
  { modelImageUrl := some "m"
    outfitHistory := [rootTwoPoses, layerB]
    currentOutfitIndex := 0
    isLoading := false
    loadingMessage := ""
    error := some "stale"
    currentPoseIndex := 0
    wardrobe := [] }

/-- C5 amended: the transitions that initiate a generation call — the
select-garment generation path, regenerate-layer, and the select-pose
generation path — clear the single error slot at their start (observable on
success as a cleared slot and on failure as the new message replacing any
previous one); the synchronous transitions leave it alone: remove-layer
with an in-range index ≥ 1 keeps the previous error unchanged, as does any
select-garment or select-pose request that makes no gateway call (guard
rejection, the reuse-cache hit, and the pose-cache hit), while remove-layer
at index 0 clears it via the full session reset. -/
theorem error_slot_policy (s : AppState) (i j k : Nat)
    (garmentFile garmentFile2 : String) (garmentInfo garmentInfo2 : WardrobeItem)
    (fr gw2 gw3 : Except String String) (img msg : String) :
    ((handleGarmentSelect s garmentFile garmentInfo (Except.ok img)).2 ≠ [] →
      (handleGarmentSelect s garmentFile garmentInfo (Except.ok img)).1.error = none) ∧
    ((handleGarmentSelect s garmentFile garmentInfo (Except.error msg)).2 ≠ [] →
      (handleGarmentSelect s garmentFile garmentInfo (Except.error msg)).1.error =
        some (getFriendlyErrorMessage msg "Không thể mặc trang phục")) ∧
    ((handleRegenerateLayer s i fr (Except.ok img)).2 ≠ [] →
      (handleRegenerateLayer s i fr (Except.ok img)).1.error = none) ∧
    ((handleRegenerateLayer s i fr (Except.error msg)).2 ≠ [] →
      (handleRegenerateLayer s i fr (Except.error msg)).1.error =
        some (getFriendlyErrorMessage msg "Không thể tạo lại trang phục")) ∧
    ((handlePoseSelect s j (Except.ok img)).2 ≠ [] →
      (handlePoseSelect s j (Except.ok img)).1.error = none) ∧
    ((handlePoseSelect s j (Except.error msg)).2 ≠ [] →
      (handlePoseSelect s j (Except.error msg)).1.error =
        some (getFriendlyErrorMessage msg "Không thể đổi dáng")) ∧
    (s.isLoading = false → i ≠ 0 → i < s.outfitHistory.length →
      (handleRemoveLayer s i).error = s.error) ∧
    (s.isLoading = false → (handleRemoveLayer s 0).error = none) ∧
    ((handleGarmentSelect s garmentFile2 garmentInfo2 gw2).2 = [] →
      (handleGarmentSelect s garmentFile2 garmentInfo2 gw2).1.error = s.error) ∧
    ((handlePoseSelect s k gw3).2 = [] →
      (handlePoseSelect s k gw3).1.error = s.error) := by
  refine ⟨?_, ?_, ?_, ?_, ?_, ?_, ?_, ?_, ?_, ?_⟩
  · unfold handleGarmentSelect garmentSelectGenerate
    rcases hd : displayImageUrl s with _ | dispUrl <;> try simp only [hd]
    · intro h; exact absurd rfl h
    · by_cases hguard : dispUrl = "" ∨ s.isLoading = true
      · rw [if_pos hguard]; intro h; exact absurd rfl h
      · rw [if_neg hguard]
        rcases hnx : s.outfitHistory[s.currentOutfitIndex + 1]? with _ | nextLayer <;>
          try simp only [hnx]
        · intro _; trivial
        · by_cases hid : nextLayer.garment.map WardrobeItem.id = some garmentInfo.id
          · rw [if_pos hid]; intro h; exact absurd rfl h
          · rw [if_neg hid]; intro _; trivial
  · unfold handleGarmentSelect garmentSelectGenerate
    rcases hd : displayImageUrl s with _ | dispUrl <;> try simp only [hd]
    · intro h; exact absurd rfl h
    · by_cases hguard : dispUrl = "" ∨ s.isLoading = true
      · rw [if_pos hguard]; intro h; exact absurd rfl h
      · rw [if_neg hguard]
        rcases hnx : s.outfitHistory[s.currentOutfitIndex + 1]? with _ | nextLayer <;>
          try simp only [hnx]
        · intro _; trivial
        · by_cases hid : nextLayer.garment.map WardrobeItem.id = some garmentInfo.id
          · rw [if_pos hid]; intro h; exact absurd rfl h
          · rw [if_neg hid]; intro _; trivial
  · unfold handleRegenerateLayer
    dsimp only
    by_cases hg : s.isLoading = true ∨ i < 1 ∨ s.outfitHistory.length ≤ i
    · rw [if_pos hg]; intro h; exact absurd rfl h
    · rw [if_neg hg]
      rcases h1 : s.outfitHistory[i]? with _ | layer <;>
        rcases h2 : s.outfitHistory[i - 1]? with _ | prev <;>
          try simp only [h1, h2]
      · intro h; exact absurd rfl h
      · intro h; exact absurd rfl h
      · intro h; exact absurd rfl h
      · rcases h3 : layer.garment with _ | info <;> try simp only [h3]
        · intro h; exact absurd rfl h
        · rcases h4 : firstPoseImage prev.poseImages with _ | base <;> try simp only [h4]
          · intro h; exact absurd rfl h
          · by_cases h5 : base = ""
            · rw [if_pos h5]; intro h; exact absurd rfl h
            · rw [if_neg h5]
              rcases fr with err | gf
              · intro h; exact absurd rfl h
              · intro _; trivial
  · unfold handleRegenerateLayer
    dsimp only
    by_cases hg : s.isLoading = true ∨ i < 1 ∨ s.outfitHistory.length ≤ i
    · rw [if_pos hg]; intro h; exact absurd rfl h
    · rw [if_neg hg]
      rcases h1 : s.outfitHistory[i]? with _ | layer <;>
        rcases h2 : s.outfitHistory[i - 1]? with _ | prev <;>
          try simp only [h1, h2]
      · intro h; exact absurd rfl h
      · intro h; exact absurd rfl h
      · intro h; exact absurd rfl h
      · rcases h3 : layer.garment with _ | info <;> try simp only [h3]
        · intro h; exact absurd rfl h
        · rcases h4 : firstPoseImage prev.poseImages with _ | base <;> try simp only [h4]
          · intro h; exact absurd rfl h
          · by_cases h5 : base = ""
            · rw [if_pos h5]; intro h; exact absurd rfl h
            · rw [if_neg h5]
              rcases fr with err | gf
              · intro h; exact absurd rfl h
              · intro _; trivial
  · unfold handlePoseSelect
    dsimp only
    by_cases hg : s.isLoading = true ∨ s.outfitHistory.length = 0 ∨ j = s.currentPoseIndex
    · rw [if_pos hg]; intro h; exact absurd rfl h
    · rw [if_neg hg]
      rcases hl : s.outfitHistory[s.currentOutfitIndex]? with _ | currentLayer <;>
        try simp only [hl]
      · intro h; exact absurd rfl h
      · by_cases hc : truthy (lookupPose currentLayer.poseImages
          (POSE_INSTRUCTIONS.getD j "undefined")) = true
        · rw [if_pos hc]; intro h; exact absurd rfl h
        · rw [if_neg hc]
          rcases hb : firstPoseImage currentLayer.poseImages with _ | base <;>
            try simp only [hb]
          · intro h; exact absurd rfl h
          · by_cases hbe : base = ""
            · rw [if_pos hbe]; intro h; exact absurd rfl h
            · rw [if_neg hbe]; intro _; trivial
  · unfold handlePoseSelect
    dsimp only
    by_cases hg : s.isLoading = true ∨ s.outfitHistory.length = 0 ∨ j = s.currentPoseIndex
    · rw [if_pos hg]; intro h; exact absurd rfl h
    · rw [if_neg hg]
      rcases hl : s.outfitHistory[s.currentOutfitIndex]? with _ | currentLayer <;>
        try simp only [hl]
      · intro h; exact absurd rfl h
      · by_cases hc : truthy (lookupPose currentLayer.poseImages
          (POSE_INSTRUCTIONS.getD j "undefined")) = true
        · rw [if_pos hc]; intro h; exact absurd rfl h
        · rw [if_neg hc]
          rcases hb : firstPoseImage currentLayer.poseImages with _ | base <;>
            try simp only [hb]
          · intro h; exact absurd rfl h
          · by_cases hbe : base = ""
            · rw [if_pos hbe]; intro h; exact absurd rfl h
            · rw [if_neg hbe]; intro _; trivial
  · intro hload hz hr
    unfold handleRemoveLayer
    rw [if_neg (by simp [hload]), if_neg hz, if_pos hr]
  · intro hload
    unfold handleRemoveLayer
    rw [if_neg (by simp [hload]), if_pos rfl]
    rfl
  · unfold handleGarmentSelect garmentSelectGenerate
    rcases hd : displayImageUrl s with _ | dispUrl <;> try simp only [hd]
    · intro _; trivial
    · by_cases hguard : dispUrl = "" ∨ s.isLoading = true
      · rw [if_pos hguard]; intro _; trivial
      · rw [if_neg hguard]
        rcases hnx : s.outfitHistory[s.currentOutfitIndex + 1]? with _ | nextLayer <;>
          try simp only [hnx]
        · rcases gw2 with err | img2 <;> · intro h; simp at h
        · by_cases hid : nextLayer.garment.map WardrobeItem.id = some garmentInfo2.id
          · rw [if_pos hid]; intro _; trivial
          · rw [if_neg hid]
            rcases gw2 with err | img2 <;> · intro h; simp at h
  · unfold handlePoseSelect
    dsimp only
    by_cases hg : s.isLoading = true ∨ s.outfitHistory.length = 0 ∨ k = s.currentPoseIndex
    · rw [if_pos hg]; intro _; trivial
    · rw [if_neg hg]
      rcases hl : s.outfitHistory[s.currentOutfitIndex]? with _ | currentLayer <;>
        try simp only [hl]
      · intro _; trivial
      · by_cases hc : truthy (lookupPose currentLayer.poseImages
          (POSE_INSTRUCTIONS.getD k "undefined")) = true
        · rw [if_pos hc]; intro _; trivial
        · rw [if_neg hc]
          rcases hb : firstPoseImage currentLayer.poseImages with _ | base <;>
            try simp only [hb]
          · intro _; trivial
          · by_cases hbe : base = ""
            · rw [if_pos hbe]; intro _; trivial
            · rw [if_neg hbe]
              rcases gw3 with err | img3 <;> · intro h; simp at h

/-- Witness for the amended C5 at a concrete state with a stale error,
exercising every conjunct: generation success clears, generation failure
replaces (select-garment, regenerate-layer, select-pose), remove-layer(1)
keeps the stale error, remove-layer(0) clears, and the reuse hit and the
pose cache hit make no gateway call and keep the stale error. -/
theorem error_slot_policy_witness :
    ((handleGarmentSelect exErrPolicyState "f" gD (Except.ok "x")).2 ≠ [] ∧
      (handleGarmentSelect exErrPolicyState "f" gD (Except.ok "x")).1.error = none) ∧
    ((handleGarmentSelect exErrPolicyState "f" gD (Except.error "boom")).2 ≠ [] ∧
      (handleGarmentSelect exErrPolicyState "f" gD (Except.error "boom")).1.error =
        some (getFriendlyErrorMessage "boom" "Không thể mặc trang phục")) ∧
    ((handleRegenerateLayer exErrPolicyState 1 (Except.ok "gf") (Except.ok "x")).2 ≠ [] ∧
      (handleRegenerateLayer exErrPolicyState 1 (Except.ok "gf") (Except.ok "x")).1.error
        = none) ∧
    ((handleRegenerateLayer exErrPolicyState 1 (Except.ok "gf") (Except.error "boom")).2
        ≠ [] ∧
      (handleRegenerateLayer exErrPolicyState 1 (Except.ok "gf") (Except.error "boom")).1.error
        = some (getFriendlyErrorMessage "boom" "Không thể tạo lại trang phục")) ∧
    ((handlePoseSelect exErrPolicyState 2 (Except.ok "x")).2 ≠ [] ∧
      (handlePoseSelect exErrPolicyState 2 (Except.ok "x")).1.error = none) ∧
    ((handlePoseSelect exErrPolicyState 2 (Except.error "boom")).2 ≠ [] ∧
      (handlePoseSelect exErrPolicyState 2 (Except.error "boom")).1.error =
        some (getFriendlyErrorMessage "boom" "Không thể đổi dáng")) ∧
    ((handleRemoveLayer exErrPolicyState 1).error = exErrPolicyState.error) ∧
    ((handleRemoveLayer exErrPolicyState 0).error = none) ∧
    ((handleGarmentSelect exErrPolicyState "f2" gB (Except.ok "y")).2 = [] ∧
      (handleGarmentSelect exErrPolicyState "f2" gB (Except.ok "y")).1.error
        = exErrPolicyState.error) ∧
    ((handlePoseSelect exErrPolicyState 1 (Except.ok "y")).2 = [] ∧
      (handlePoseSelect exErrPolicyState 1 (Except.ok "y")).1.error
        = exErrPolicyState.error) := by
  have h := error_slot_policy exErrPolicyState 1 2 1 "f" "f2" gD gB
    (Except.ok "gf") (Except.ok "y") (Except.ok "y") "x" "boom"
  exact ⟨⟨by decide, h.1 (by decide)⟩,
         ⟨by decide, h.2.1 (by decide)⟩,
         ⟨by decide, h.2.2.1 (by decide)⟩,
         ⟨by decide, h.2.2.2.1 (by decide)⟩,
         ⟨by decide, h.2.2.2.2.1 (by decide)⟩,
         ⟨by decide, h.2.2.2.2.2.1 (by decide)⟩,
         h.2.2.2.2.2.2.1 (by decide) (by decide) (by decide),
         h.2.2.2.2.2.2.2.1 (by decide),
         ⟨by decide, h.2.2.2.2.2.2.2.2.1 (by decide)⟩,
         ⟨by decide, h.2.2.2.2.2.2.2.2.2 (by decide)⟩⟩


/-- The position invariant: with no history the position is 0 and no model
image is finalized; with a non-empty history the current position is always
the last index. -/
def IndexInv (s : AppState) : Prop :=
  (s.outfitHistory = [] → s.modelImageUrl = none) ∧
  (s.outfitHistory = [] → s.currentOutfitIndex = 0) ∧
  (s.outfitHistory ≠ [] → s.currentOutfitIndex = s.outfitHistory.length - 1)

theorem indexInv_initial : IndexInv initialState :=
  ⟨fun _ => rfl, fun _ => rfl, fun h => absurd rfl h⟩

theorem indexInv_modelFinalized (s : AppState) (url : String) :
    IndexInv (handleModelFinalized s url) := by
  refine ⟨fun h => ?_, fun h => ?_, fun _ => rfl⟩ <;> simp [handleModelFinalized] at h

theorem indexInv_startOver (s : AppState) : IndexInv (handleStartOver s) :=
  ⟨fun _ => rfl, fun _ => rfl, fun h => absurd rfl h⟩

theorem indexInv_garmentSelect (s : AppState) (f : String) (g : WardrobeItem)
    (gw : Except String String) (h : IndexInv s) :
    IndexInv (handleGarmentSelect s f g gw).1 := by
  unfold handleGarmentSelect
  rcases hd : displayImageUrl s with _ | dispUrl <;> try simp only [hd]
  · exact h
  · by_cases hguard : dispUrl = "" ∨ s.isLoading = true
    · rw [if_pos hguard]; exact h
    · rw [if_neg hguard]
      have hne : s.outfitHistory ≠ [] := by
        intro hemp
        have hm := h.1 hemp
        rw [displayImageUrl] at hd
        simp [hemp, hm] at hd
      have hlast := h.2.2 hne
      have hpos : 0 < s.outfitHistory.length := List.length_pos.mpr hne
      rcases hnx : s.outfitHistory[s.currentOutfitIndex + 1]? with _ | nextLayer <;>
        try simp only [hnx]
      · unfold garmentSelectGenerate
        rcases gw with err | img
        · exact h
        · refine ⟨fun hemp => ?_, fun hemp => ?_, fun _ => ?_⟩
          · simp at hemp
          · simp at hemp
          · simp only [List.length_append, List.length_take, List.length_cons,
              List.length_nil]
            omega
      · exfalso
        have hlt : s.currentOutfitIndex + 1 < s.outfitHistory.length := by
          by_contra hge
          push_neg at hge
          rw [List.getElem?_eq_none hge] at hnx
          exact Option.noConfusion hnx
        omega

theorem indexInv_regenerateLayer (s : AppState) (i : Nat) (fr gw : Except String String)
    (h : IndexInv s) : IndexInv (handleRegenerateLayer s i fr gw).1 := by
  unfold handleRegenerateLayer
  dsimp only
  by_cases hg : s.isLoading = true ∨ i < 1 ∨ s.outfitHistory.length ≤ i
  · rw [if_pos hg]; exact h
  · rw [if_neg hg]
    push_neg at hg
    obtain ⟨hload, hge, hlen⟩ := hg
    rcases h1 : s.outfitHistory[i]? with _ | layer <;>
      rcases h2 : s.outfitHistory[i - 1]? with _ | prev <;>
        try simp only [h1, h2]
    · exact h
    · exact h
    · exact h
    · rcases h3 : layer.garment with _ | info <;> try simp only [h3]
      · exact h
      · rcases h4 : firstPoseImage prev.poseImages with _ | base <;> try simp only [h4]
        · exact h
        · by_cases h5 : base = ""
          · rw [if_pos h5]; exact h
          · rw [if_neg h5]
            rcases fr with err | gf
            · exact h
            · rcases gw with err2 | img
              · exact h
              · refine ⟨fun hemp => ?_, fun hemp => ?_, fun _ => ?_⟩
                · have hlen2 := congrArg List.length hemp
                  simp only [List.length_set, List.length_take, List.length_nil] at hlen2
                  omega
                · have hlen2 := congrArg List.length hemp
                  simp only [List.length_set, List.length_take, List.length_nil] at hlen2
                  omega
                · simp only [List.length_set, List.length_take]
                  omega

theorem indexInv_removeLayer (s : AppState) (i : Nat) (h : IndexInv s) :
    IndexInv (handleRemoveLayer s i) := by
  unfold handleRemoveLayer
  by_cases hl : s.isLoading = true
  · rw [if_pos hl]; exact h
  · rw [if_neg hl]
    by_cases hz : i = 0
    · rw [if_pos hz]
      exact indexInv_startOver s
    · rw [if_neg hz]
      by_cases hr : i < s.outfitHistory.length
      · rw [if_pos hr]
        refine ⟨fun hemp => ?_, fun hemp => ?_, fun _ => ?_⟩
        · have hlen2 := congrArg List.length hemp
          simp only [List.length_take, List.length_nil] at hlen2
          omega
        · have hlen2 := congrArg List.length hemp
          simp only [List.length_take, List.length_nil] at hlen2
          omega
        · simp only [List.length_take]
          omega
      · rw [if_neg hr]; exact h

theorem indexInv_poseSelect (s : AppState) (j : Nat) (gw : Except String String)
    (h : IndexInv s) : IndexInv (handlePoseSelect s j gw).1 := by
  unfold handlePoseSelect
  dsimp only
  by_cases hg : s.isLoading = true ∨ s.outfitHistory.length = 0 ∨ j = s.currentPoseIndex
  · rw [if_pos hg]; exact h
  · rw [if_neg hg]
    rcases hl : s.outfitHistory[s.currentOutfitIndex]? with _ | currentLayer <;>
      try simp only [hl]
    · exact h
    · by_cases hc : truthy (lookupPose currentLayer.poseImages
        (POSE_INSTRUCTIONS.getD j "undefined")) = true
      · rw [if_pos hc]; exact h
      · rw [if_neg hc]
        rcases hb : firstPoseImage currentLayer.poseImages with _ | base <;>
          try simp only [hb]
        · exact h
        · by_cases hbe : base = ""
          · rw [if_pos hbe]; exact h
          · rw [if_neg hbe]
            rcases gw with err | img
            · exact h
            · have hset : ∀ nl, (s.outfitHistory.set s.currentOutfitIndex nl).length
                  = s.outfitHistory.length := fun nl => List.length_set ..
              refine ⟨fun hemp => ?_, fun hemp => ?_, fun hne => ?_⟩
              · have hlen2 := congrArg List.length hemp
                rw [hset] at hlen2
                simp only [List.length_nil] at hlen2
                exact h.1 (List.length_eq_zero.mp hlen2)
              · have hlen2 := congrArg List.length hemp
                rw [hset] at hlen2
                simp only [List.length_nil] at hlen2
                exact h.2.1 (List.length_eq_zero.mp hlen2)
              · have hne2 : s.outfitHistory ≠ [] := by
                  intro hemp
                  rw [hemp] at hne
                  simp at hne
                have := h.2.2 hne2
                rw [hset]
                exact this

theorem indexInv_step {s t : AppState} (h : IndexInv s) (st : Step s t) : IndexInv t := by
  cases st with
  | modelFinalized url => exact indexInv_modelFinalized _ url
  | startOver => exact indexInv_startOver _
  | garmentSelect f g gw => exact indexInv_garmentSelect _ f g gw h
  | regenerateLayer i fr gw => exact indexInv_regenerateLayer _ i fr gw h
  | removeLayer i => exact indexInv_removeLayer _ i h
  | poseSelect j gw => exact indexInv_poseSelect _ j gw h

theorem reachable_indexInv (s : AppState) (hs : Reachable s) : IndexInv s := by
  induction hs with
  | init => exact indexInv_initial
  | step hr st ih => exact indexInv_step ih st

/-- In every reachable state the current position is the last index of the
history, so the layer the reuse check of `handleGarmentSelect` inspects
(`outfitHistory[currentOutfitIndex + 1]`) never exists: the reapply-cache
branch is unreachable under the controller's own transitions. -/
theorem reuse_check_unreachable (s : AppState) (hs : Reachable s) :
    s.outfitHistory[s.currentOutfitIndex + 1]? = none := by
  obtain ⟨_, _, hlast⟩ := reachable_indexInv s hs
  by_cases hne : s.outfitHistory = []
  · rw [hne]; simp
  · have hlast2 := hlast hne
    have hpos : 0 < s.outfitHistory.length := List.length_pos.mpr hne
    apply List.getElem?_eq_none
    omega
